import Mathlib

/-!
Shallow embedding of the dsp-ui hardware driver core (src/hardware/rpi.py,
class RPiHW; the mock backend src/hardware/mock.py appears where a claim
cites it), together with proofs settling the specification claims about it.

State-carrying Python methods become pure Lean functions from a state to a
new state paired with the list of observable hardware effects (GPIO phase
writes, button presses, SPI transfers, warnings).  The unbounded Python
`while` loops of set_center_frequency / set_bandwidth are embedded with an
explicit fuel parameter: a `none` result means the loop was still running
when the fuel ran out.
-/

/-- Control mode of the module: which parameter the encoder currently
affects.  Mirrors the Python string field `mode` with values
"centre" / "bandwidth" (rpi.py line 54). -/
inductive Mode
  | centre
  | bandwidth
deriving DecidableEq

/-- Rotational direction of the encoder.  The Python code compares its
`direction` argument against the string "CW"; any other value behaves as
counter-clockwise, so a two-valued type is faithful. -/
inductive Dir
  | cw
  | ccw
deriving DecidableEq

/-- Observable hardware side effects of the driver, in program order:
a quadrature phase pair written to the two encoder lines (rpi.py lines
134-136), one complete button press (drive low, hold, release high,
rpi.py lines 108-110), a raw SPI frame (rpi.py line 95), a level written
to the bypass line (rpi.py line 84), and the printed invalid-readback
warning (rpi.py line 123). -/
inductive Ev
  | phase (a b : Nat)
  | press
  | spiXfer (bytes : List Int)
  | bypassOut (b : Bool)
  | warnInvalidMode
deriving DecidableEq

/-- The driver's shadow state: the fields of RPiHW that the claims are
about (rpi.py lines 44, 51, 54-56). -/
structure HWState where
  mode : Mode
  center_freq : Int
  bandwidth : Int
  volume : Int
  bypass_state : Bool
deriving DecidableEq

/-- Initial shadow state fixed by RPiHW.__init__ (rpi.py lines 44, 51,
54-56): mode "centre", center 1500, bandwidth 2400, volume 128, bypass
off. -/
def initState : HWState :=
  { mode := Mode.centre, center_freq := 1500, bandwidth := 2400,
    volume := 128, bypass_state := false }

/-- The clamp `max(200, min(3500, x))` applied to frequency/bandwidth
values (rpi.py lines 61, 71, 149, 163). -/
def clampFreq (x : Int) : Int := max 200 (min 3500 x)

/-- The clamp `max(0, min(255, value))` applied to the wiper code
(rpi.py line 93). -/
def clampWiper (x : Int) : Int := max 0 (min 255 x)

/-- Step size for one detent at the current center frequency:
`25 if self.center_freq < 2000 else 50` (rpi.py line 147). -/
def centerStepSize (cf : Int) : Int := if cf < 2000 then 25 else 50

/-- Step size for one detent at the current bandwidth: 20 below 400,
50 below 700, else 100 (rpi.py lines 155-160). -/
def bandwidthStepSize (bw : Int) : Int :=
  if bw < 400 then 20 else if bw < 700 then 50 else 100

/-- RPiHW._update_center (rpi.py lines 146-151): move the shadow center
frequency by `detents * step_size` in the given direction, clamped to
[200, 3500]. -/
def update_center (d : Dir) (detents : Nat) (s : HWState) : HWState :=
  let step_size := centerStepSize s.center_freq
  let delta : Int := (detents : Int) * step_size * (if d = Dir.cw then 1 else -1)
  { s with center_freq := clampFreq (s.center_freq + delta) }

/-- RPiHW._update_bandwidth (rpi.py lines 153-165): move the shadow
bandwidth by `detents * step_size` in the given direction, clamped to
[200, 3500]. -/
def update_bandwidth (d : Dir) (detents : Nat) (s : HWState) : HWState :=
  let step_size := bandwidthStepSize s.bandwidth
  let delta : Int := (detents : Int) * step_size * (if d = Dir.cw then 1 else -1)
  { s with bandwidth := clampFreq (s.bandwidth + delta) }

/-- The Gray code sequence for one CW detent step, RPiHW.GRAY_SEQ
(rpi.py lines 20-25). -/
def GRAY_SEQ : List (Nat × Nat) := [(0, 0), (0, 1), (1, 1), (1, 0)]

/-- RPiHW.step_once (rpi.py lines 128-137): the phase pairs written to the
two encoder lines for one detent — GRAY_SEQ for CW, its reverse for CCW.
Pure output-line effect, no shadow-state change. -/
def step_once (d : Dir) : List Ev :=
  (if d = Dir.cw then GRAY_SEQ else GRAY_SEQ.reverse).map
    (fun p => Ev.phase p.1 p.2)

/-- RPiHW.step (rpi.py lines 138-145): emit `detents` detent pulse trains,
then update the shadow value of whichever parameter the current mode
selects (center if mode == "centre", else bandwidth), using a single step
size multiplied by `detents`. -/
def step (d : Dir) (detents : Nat) (s : HWState) : HWState × List Ev :=
  let evs := (List.replicate detents (step_once d)).flatten
  let s' := if s.mode = Mode.centre then update_center d detents s
            else update_bandwidth d detents s
  (s', evs)

/-- The readback of the two mode-indicator lines (LED_CF, LED_BW) after a
button press, an input from the environment: `(GPIO.input(LED_CF),
GPIO.input(LED_BW))` (rpi.py lines 115-116). -/
abbrev Readback := Nat × Nat

/-- A readback is invalid when it is neither (1,0) nor (0,1): both
indicator lines asserted or both clear (rpi.py lines 118-122, else
branch). -/
def invalidReadback (rb : Readback) : Prop :=
  ¬(rb.1 = 1 ∧ rb.2 = 0) ∧ ¬(rb.1 = 0 ∧ rb.2 = 1)

instance (rb : Readback) : Decidable (invalidReadback rb) := by
  unfold invalidReadback; infer_instance

/-- The mode a readback reports: (1,0) for centre, (0,1) for bandwidth,
none when invalid — the branch structure of rpi.py lines 118-124. -/
def readMode (rb : Readback) : Option Mode :=
  if rb.1 = 1 ∧ rb.2 = 0 then some Mode.centre
  else if rb.1 = 0 ∧ rb.2 = 1 then some Mode.bandwidth
  else none

/-- RPiHW.toggle_mode (rpi.py lines 105-126): unconditionally perform one
full button press, then read the two indicator lines; on (1,0) set shadow
mode to centre, on (0,1) to bandwidth, otherwise print a warning and keep
the previous mode.  The function returns None in Python in every branch —
no success/failure value reaches the caller. -/
def toggle_mode (rb : Readback) (s : HWState) : HWState × List Ev :=
  if rb.1 = 1 ∧ rb.2 = 0 then ({ s with mode := Mode.centre }, [Ev.press])
  else if rb.1 = 0 ∧ rb.2 = 1 then ({ s with mode := Mode.bandwidth }, [Ev.press])
  else (s, [Ev.press, Ev.warnInvalidMode])

/-- RPiHW.set_wiper (rpi.py lines 91-97): clamp the code to [0, 255],
transmit the 2-byte frame [0x11, clamped] over SPI, record the clamped
code in the volume shadow.  Total — no input is rejected. -/
def set_wiper (v : Int) (s : HWState) : HWState × List Ev :=
  let value := clampWiper v
  ({ s with volume := value }, [Ev.spiXfer [17, value]])

/-- RPiHW.set_volume (rpi.py lines 100-102): public setter, delegates to
set_wiper. -/
def set_volume (v : Int) (s : HWState) : HWState × List Ev :=
  set_wiper v s

/-- RPiHW.set_bypass (rpi.py lines 82-86): drive the bypass line and
record the state. -/
def set_bypass (b : Bool) (s : HWState) : HWState × List Ev :=
  ({ s with bypass_state := b }, [Ev.bypassOut b])

/-- The `while self.center_freq != target` loop of set_center_frequency
(rpi.py lines 65-68), with fuel bounding the number of iterations we
unfold: result `none` means the loop was still running after `fuel`
iterations (the Python loop itself has no bound). -/
def setCFloop (fuel : Nat) (target : Int) (s : HWState) : Option HWState × List Ev :=
  match fuel with
  | 0 => (none, [])
  | Nat.succ n =>
    if s.center_freq = target then (some s, [])
    else
      let d := if target > s.center_freq then Dir.cw else Dir.ccw
      let r1 := step d 1 s
      let r2 := setCFloop n target r1.1
      (r2.1, r1.2 ++ r2.2)

/-- RPiHW.set_center_frequency (rpi.py lines 60-68): clamp the target to
[200, 3500], toggle the mode once if the shadow mode is not centre
(regardless of whether that toggle succeeds), then run the convergence
loop. -/
def set_center_frequency (fuel : Nat) (rb : Readback) (t : Int) (s : HWState) :
    Option HWState × List Ev :=
  let target := clampFreq t
  let r0 := if s.mode ≠ Mode.centre then toggle_mode rb s else (s, [])
  let r1 := setCFloop fuel target r0.1
  (r1.1, r0.2 ++ r1.2)

/-- The `while self.bandwidth != target` loop of set_bandwidth
(rpi.py lines 75-78), fuel-bounded as for setCFloop. -/
def setBWloop (fuel : Nat) (target : Int) (s : HWState) : Option HWState × List Ev :=
  match fuel with
  | 0 => (none, [])
  | Nat.succ n =>
    if s.bandwidth = target then (some s, [])
    else
      let d := if target > s.bandwidth then Dir.cw else Dir.ccw
      let r1 := step d 1 s
      let r2 := setBWloop n target r1.1
      (r2.1, r1.2 ++ r2.2)

/-- RPiHW.set_bandwidth (rpi.py lines 70-78): clamp the target, toggle the
mode once if the shadow mode is not bandwidth (regardless of whether that
toggle succeeds), then run the convergence loop. -/
def set_bandwidth (fuel : Nat) (rb : Readback) (t : Int) (s : HWState) :
    Option HWState × List Ev :=
  let target := clampFreq t
  let r0 := if s.mode ≠ Mode.bandwidth then toggle_mode rb s else (s, [])
  let r1 := setBWloop fuel target r0.1
  (r1.1, r0.2 ++ r1.2)

/-- The mode-request guard at the head of set_center_frequency /
set_bandwidth (rpi.py lines 62-63 and 72-73): press the mode button via
toggle_mode only when the shadow mode differs from the requested one.
This is the code's realization of the spec's `request_mode(target_mode)`. -/
def requestMode (m : Mode) (rb : Readback) (s : HWState) : HWState × List Ev :=
  if s.mode ≠ m then toggle_mode rb s else (s, [])

/-- Two consecutive requests of the same target mode, each with its own
indicator readback, with the traces concatenated. -/
def requestTwice (m : Mode) (rb1 rb2 : Readback) (s : HWState) :
    HWState × List Ev :=
  let r1 := requestMode m rb1 s
  let r2 := requestMode m rb2 r1.1
  (r2.1, r1.2 ++ r2.2)

/-- One tick of RPiHW._poll_overload_led (rpi.py lines 175-194): the level
value delivered to the registered observer as a function of the raw
reading of the overload line — 1.0 when the line reads HIGH (1), else
0.0.  Levels are modelled as rationals since the Python floats 0.0 and
1.0 are exact. -/
def pollTickLevel (raw : Nat) : ℚ := if raw = 1 then 1 else 0

/-- One tick of MockHW._pump (mock.py lines 19-25): the level value
delivered to the registered observer is `50 + 45 * math.sin(1.6 * t)`;
here `s` stands for the value of `sin(1.6 * t)` at the tick, which always
lies in [-1, 1] and equals 0 at t = 0. -/
def mockPumpLevel (s : ℚ) : ℚ := 50 + 45 * s

/-- States of the driver reachable from the initial shadow state by any
sequence of the primitive shadow-mutating operations (step, toggle_mode,
set_wiper/set_volume, set_bypass, with arbitrary environment readbacks).
set_center_frequency and set_bandwidth mutate the shadow state only
through step and toggle_mode, so every state they produce — including
every intermediate state of their loops — is reachable in this sense
(lemmas setCFloop_reachable / setBWloop_reachable below). -/
inductive Reachable : HWState → Prop
  | init : Reachable initState
  | enc (d : Dir) (n : Nat) {s : HWState} :
      Reachable s → Reachable (step d n s).1
  | tog (rb : Readback) {s : HWState} :
      Reachable s → Reachable (toggle_mode rb s).1
  | vol (v : Int) {s : HWState} :
      Reachable s → Reachable (set_wiper v s).1
  | byp (b : Bool) {s : HWState} :
      Reachable s → Reachable (set_bypass b s).1

/-- Iterate single-detent steps, as the convergence loops do. -/
def stepN (d : Dir) : Nat → HWState → HWState
  | 0, s => s
  | Nat.succ n, s => stepN d n (step d 1 s).1

/-- The inductive shadow-state invariant maintained by every operation:
both tunable parameters stay inside [200, 3500] (every update clamps),
the center frequency stays a multiple of 25 (both its step sizes are),
and the bandwidth stays a multiple of 10 (all three of its step sizes
are). -/
def ShadowInv (s : HWState) : Prop :=
  200 ≤ s.center_freq ∧ s.center_freq ≤ 3500 ∧ s.center_freq % 25 = 0 ∧
  200 ≤ s.bandwidth ∧ s.bandwidth ≤ 3500 ∧ s.bandwidth % 10 = 0

/-- A reachable state with center frequency 2025: one 21-detent CW step
from the initial state (1500 + 21 * 25 = 2025). -/
def reachState2025 : HWState := (step Dir.cw 21 initState).1

/-- The initial state after one successful toggle into bandwidth mode
(readback (0, 1)). -/
def modeBWState : HWState := (toggle_mode (0, 1) initState).1

/-- A reachable state with bandwidth 350: toggle into bandwidth mode, then
23 single CCW detents (2400 → 700 in hundreds, 700 → 600, 600 → 400 in
fifties, 400 → 350). -/
def reachState350 : HWState := stepN Dir.ccw 23 modeBWState

/-! ### Shared helper lemmas -/

lemma step_fst (d : Dir) (n : Nat) (s : HWState) :
    (step d n s).1 = if s.mode = Mode.centre then update_center d n s
      else update_bandwidth d n s := rfl

lemma update_center_cf (d : Dir) (n : Nat) (s : HWState) :
    (update_center d n s).center_freq =
      clampFreq (s.center_freq + (n : Int) * centerStepSize s.center_freq *
        (if d = Dir.cw then 1 else -1)) := rfl

lemma update_bandwidth_bw (d : Dir) (n : Nat) (s : HWState) :
    (update_bandwidth d n s).bandwidth =
      clampFreq (s.bandwidth + (n : Int) * bandwidthStepSize s.bandwidth *
        (if d = Dir.cw then 1 else -1)) := rfl

lemma step_mode (d : Dir) (n : Nat) (s : HWState) :
    (step d n s).1.mode = s.mode := by
  rw [step_fst]; split_ifs <;> rfl

lemma inv_update_center (d : Dir) (n : Nat) {s : HWState} (h : ShadowInv s) :
    ShadowInv (update_center d n s) := by
  obtain ⟨h1, h2, h3, h4, h5, h6⟩ := h
  have hdelta : ((n : Int) * centerStepSize s.center_freq *
      (if d = Dir.cw then 1 else -1)) % 25 = 0 := by
    unfold centerStepSize; split_ifs <;> omega
  refine ⟨?_, ?_, ?_, h4, h5, h6⟩ <;>
    · rw [show (update_center d n s).center_freq = _ from update_center_cf d n s]
      unfold clampFreq
      omega

lemma inv_update_bandwidth (d : Dir) (n : Nat) {s : HWState} (h : ShadowInv s) :
    ShadowInv (update_bandwidth d n s) := by
  obtain ⟨h1, h2, h3, h4, h5, h6⟩ := h
  have hdelta : ((n : Int) * bandwidthStepSize s.bandwidth *
      (if d = Dir.cw then 1 else -1)) % 10 = 0 := by
    unfold bandwidthStepSize; split_ifs <;> omega
  refine ⟨h1, h2, h3, ?_, ?_, ?_⟩ <;>
    · rw [show (update_bandwidth d n s).bandwidth = _ from update_bandwidth_bw d n s]
      unfold clampFreq
      omega

lemma inv_step (d : Dir) (n : Nat) {s : HWState} (h : ShadowInv s) :
    ShadowInv (step d n s).1 := by
  rw [step_fst]
  split_ifs
  · exact inv_update_center d n h
  · exact inv_update_bandwidth d n h

lemma inv_toggle (rb : Readback) {s : HWState} (h : ShadowInv s) :
    ShadowInv (toggle_mode rb s).1 := by
  unfold toggle_mode
  split_ifs <;> exact h

lemma inv_wiper (v : Int) {s : HWState} (h : ShadowInv s) :
    ShadowInv (set_wiper v s).1 := h

lemma inv_bypass (b : Bool) {s : HWState} (h : ShadowInv s) :
    ShadowInv (set_bypass b s).1 := h

lemma inv_init : ShadowInv initState := by
  refine ⟨?_, ?_, ?_, ?_, ?_, ?_⟩ <;> decide

lemma reachable_inv {s : HWState} (h : Reachable s) : ShadowInv s := by
  induction h with
  | init => exact inv_init
  | enc d n _ ih => exact inv_step d n ih
  | tog rb _ ih => exact inv_toggle rb ih
  | vol v _ ih => exact inv_wiper v ih
  | byp b _ ih => exact inv_bypass b ih

lemma stepN_reachable (d : Dir) (n : Nat) {s : HWState} (h : Reachable s) :
    Reachable (stepN d n s) := by
  induction n generalizing s with
  | zero => exact h
  | succ k ih => exact ih (Reachable.enc d 1 h)

lemma reachable_reachState2025 : Reachable reachState2025 :=
  Reachable.enc Dir.cw 21 Reachable.init

lemma reachable_modeBWState : Reachable modeBWState :=
  Reachable.tog (0, 1) Reachable.init

lemma reachable_reachState350 : Reachable reachState350 :=
  stepN_reachable Dir.ccw 23 reachable_modeBWState

lemma setCFloop_succ (n : Nat) (target : Int) (s : HWState) :
    setCFloop (n + 1) target s =
      if s.center_freq = target then (some s, [])
      else
        let d := if target > s.center_freq then Dir.cw else Dir.ccw
        let r1 := step d 1 s
        let r2 := setCFloop n target r1.1
        (r2.1, r1.2 ++ r2.2) := rfl

lemma setBWloop_succ (n : Nat) (target : Int) (s : HWState) :
    setBWloop (n + 1) target s =
      if s.bandwidth = target then (some s, [])
      else
        let d := if target > s.bandwidth then Dir.cw else Dir.ccw
        let r1 := step d 1 s
        let r2 := setBWloop n target r1.1
        (r2.1, r1.2 ++ r2.2) := rfl

lemma setCFloop_fst (n : Nat) (target : Int) (s : HWState) :
    (setCFloop (n + 1) target s).1 =
      if s.center_freq = target then some s
      else (setCFloop n target
        (step (if target > s.center_freq then Dir.cw else Dir.ccw) 1 s).1).1 := by
  rw [setCFloop_succ]
  by_cases hc : s.center_freq = target
  · rw [if_pos hc, if_pos hc]
  · rw [if_neg hc, if_neg hc]

lemma setBWloop_fst (n : Nat) (target : Int) (s : HWState) :
    (setBWloop (n + 1) target s).1 =
      if s.bandwidth = target then some s
      else (setBWloop n target
        (step (if target > s.bandwidth then Dir.cw else Dir.ccw) 1 s).1).1 := by
  rw [setBWloop_succ]
  by_cases hc : s.bandwidth = target
  · rw [if_pos hc, if_pos hc]
  · rw [if_neg hc, if_neg hc]

lemma setCFloop_reachable (fuel : Nat) (target : Int) {s s' : HWState}
    (h : Reachable s) (h' : (setCFloop fuel target s).1 = some s') :
    Reachable s' := by
  induction fuel generalizing s with
  | zero => exact absurd h' (by simp [setCFloop])
  | succ n ih =>
    rw [setCFloop_fst] at h'
    by_cases hc : s.center_freq = target
    · rw [if_pos hc] at h'
      cases h'
      exact h
    · rw [if_neg hc] at h'
      exact ih (Reachable.enc _ 1 h) h'

lemma setBWloop_reachable (fuel : Nat) (target : Int) {s s' : HWState}
    (h : Reachable s) (h' : (setBWloop fuel target s).1 = some s') :
    Reachable s' := by
  induction fuel generalizing s with
  | zero => exact absurd h' (by simp [setBWloop])
  | succ n ih =>
    rw [setBWloop_fst] at h'
    by_cases hc : s.bandwidth = target
    · rw [if_pos hc] at h'
      cases h'
      exact h
    · rw [if_neg hc] at h'
      exact ih (Reachable.enc _ 1 h) h'

/-! ### Claim theorems -/

/-- C3: for every current value, the step size used for one detent is
exactly: center frequency — 25 below 2000, otherwise 50; bandwidth — 20
below 400, 50 in [400, 700), otherwise 100; in particular at each
threshold and at threshold ± 1.  These are the step-size functions that
update_center / update_bandwidth (hence each convergence detent) use. -/
theorem C3_step_size_policy :
    (∀ v : Int, v < 2000 → centerStepSize v = 25) ∧
    (∀ v : Int, 2000 ≤ v → centerStepSize v = 50) ∧
    (∀ v : Int, v < 400 → bandwidthStepSize v = 20) ∧
    (∀ v : Int, 400 ≤ v → v < 700 → bandwidthStepSize v = 50) ∧
    (∀ v : Int, 700 ≤ v → bandwidthStepSize v = 100) ∧
    centerStepSize 1999 = 25 ∧ centerStepSize 2000 = 50 ∧
    centerStepSize 2001 = 50 ∧
    bandwidthStepSize 399 = 20 ∧ bandwidthStepSize 400 = 50 ∧
    bandwidthStepSize 401 = 50 ∧ bandwidthStepSize 699 = 50 ∧
    bandwidthStepSize 700 = 100 ∧ bandwidthStepSize 701 = 100 := by
  refine ⟨?_, ?_, ?_, ?_, ?_, ?_, ?_, ?_, ?_, ?_, ?_, ?_, ?_, ?_⟩
  · intro v h
    unfold centerStepSize
    rw [if_pos h]
  · intro v h
    unfold centerStepSize
    rw [if_neg (by omega)]
  · intro v h
    unfold bandwidthStepSize
    rw [if_pos h]
  · intro v h1 h2
    unfold bandwidthStepSize
    rw [if_neg (by omega), if_pos h2]
  · intro v h
    unfold bandwidthStepSize
    rw [if_neg (by omega), if_neg (by omega)]
  all_goals decide

/-- C3 witness: the policy evaluated at concrete points on both sides of
each threshold, via the universally quantified parts of the theorem. -/
theorem C3_step_size_policy_witness :
    centerStepSize 1500 = 25 ∧ centerStepSize 3000 = 50 ∧
    bandwidthStepSize 250 = 20 ∧ bandwidthStepSize 500 = 50 ∧
    bandwidthStepSize 2400 = 100 :=
  ⟨C3_step_size_policy.1 1500 (by decide),
   C3_step_size_policy.2.1 3000 (by decide),
   C3_step_size_policy.2.2.1 250 (by decide),
   C3_step_size_policy.2.2.2.1 500 (by decide) (by decide),
   C3_step_size_policy.2.2.2.2.1 2400 (by decide)⟩

/-- C7: for every input code and every state, set_volume clamps the code
to [0, 255], transmits exactly the 2-byte frame [0x11, clamped] on the
SPI bus, and updates the volume shadow to the clamped code; in particular
300 clamps to 255 and -5 clamps to 0.  The function is total, so no input
is ever surfaced as a failure. -/
theorem C7_set_volume_clamps :
    ∀ (v : Int) (s : HWState),
      (set_volume v s).2 = [Ev.spiXfer [17, clampWiper v]] ∧
      (set_volume v s).1.volume = clampWiper v ∧
      0 ≤ clampWiper v ∧ clampWiper v ≤ 255 ∧
      (set_volume 300 s).1.volume = 255 ∧
      (set_volume (-5) s).1.volume = 0 := by
  intro v s
  refine ⟨rfl, rfl, ?_, ?_, rfl, rfl⟩ <;>
    · unfold clampWiper
      omega

/-- C8: one clockwise detent emits exactly the phase-pair sequence
(0,0), (0,1), (1,1), (1,0) on the two encoder lines, and one
counter-clockwise detent emits exactly that sequence in reverse order. -/
theorem C8_quadrature_sequence :
    step_once Dir.cw =
      [Ev.phase 0 0, Ev.phase 0 1, Ev.phase 1 1, Ev.phase 1 0] ∧
    step_once Dir.ccw =
      [Ev.phase 1 0, Ev.phase 1 1, Ev.phase 0 1, Ev.phase 0 0] ∧
    step_once Dir.ccw = (step_once Dir.cw).reverse := by
  refine ⟨rfl, rfl, rfl⟩

/-- C10: every call to toggle_mode performs exactly one physical button
press, and performs it first — before the indicator readback has any
effect — in every branch; in the invalid-readback branch the shadow mode
is left unchanged even though the button was pressed. -/
theorem C10_toggle_always_presses :
    ∀ (rb : Readback) (s : HWState),
      ((toggle_mode rb s).2).count Ev.press = 1 ∧
      ((toggle_mode rb s).2).head? = some Ev.press ∧
      (invalidReadback rb → (toggle_mode rb s).1.mode = s.mode) := by
  intro rb s
  unfold toggle_mode
  by_cases h1 : rb.1 = 1 ∧ rb.2 = 0
  · rw [if_pos h1]
    exact ⟨rfl, rfl, fun hr => absurd h1 hr.1⟩
  · rw [if_neg h1]
    by_cases h2 : rb.1 = 0 ∧ rb.2 = 1
    · rw [if_pos h2]
      exact ⟨rfl, rfl, fun hr => absurd h2 hr.2⟩
    · rw [if_neg h2]
      exact ⟨rfl, rfl, fun _ => rfl⟩

/-- C10 witness: a concrete invalid readback (both lines asserted) at the
initial state — the button is pressed exactly once and the shadow mode is
unchanged. -/
theorem C10_toggle_always_presses_witness :
    ((toggle_mode (1, 1) initState).2).count Ev.press = 1 ∧
    ((toggle_mode (1, 1) initState).2).head? = some Ev.press ∧
    (toggle_mode (1, 1) initState).1.mode = initState.mode := by
  have h := C10_toggle_always_presses (1, 1) initState
  exact ⟨h.1, h.2.1, h.2.2 (by decide)⟩

lemma toggle_mode_invalid {rb : Readback} (s : HWState)
    (hr : invalidReadback rb) :
    toggle_mode rb s = (s, [Ev.press, Ev.warnInvalidMode]) := by
  unfold toggle_mode
  rw [if_neg hr.1, if_neg hr.2]

lemma toggle_mode_of_readMode {rb : Readback} {m : Mode} (s : HWState)
    (h : readMode rb = some m) :
    toggle_mode rb s = ({ s with mode := m }, [Ev.press]) := by
  unfold readMode at h
  unfold toggle_mode
  by_cases h1 : rb.1 = 1 ∧ rb.2 = 0
  · rw [if_pos h1] at h
    rw [if_pos h1]
    injection h with h'
    rw [h']
  · by_cases h2 : rb.1 = 0 ∧ rb.2 = 1
    · rw [if_neg h1, if_pos h2] at h
      rw [if_neg h1, if_pos h2]
      injection h with h'
      rw [h']
    · rw [if_neg h1, if_neg h2] at h
      exact absurd h (by simp)

lemma requestMode_eq_of_mode (m : Mode) (rb : Readback) {s : HWState}
    (h : s.mode = m) : requestMode m rb s = (s, []) := by
  unfold requestMode
  rw [if_neg (not_not_intro h)]

lemma requestMode_eq_of_ne (m : Mode) (rb : Readback) {s : HWState}
    (h : ¬s.mode = m) : requestMode m rb s = toggle_mode rb s := by
  unfold requestMode
  rw [if_pos h]

lemma requestTwice_eq (m : Mode) (rb1 rb2 : Readback) (s : HWState) :
    requestTwice m rb1 rb2 s =
      ((requestMode m rb2 (requestMode m rb1 s).1).1,
       (requestMode m rb1 s).2 ++
         (requestMode m rb2 (requestMode m rb1 s).1).2) := rfl

lemma phase00_mem_step_once (d : Dir) : Ev.phase 0 0 ∈ step_once d := by
  rcases d <;> decide

lemma step_snd (d : Dir) (s : HWState) :
    (step d 1 s).2 = step_once d ++ [] := rfl

lemma set_center_frequency_eq (fuel : Nat) (rb : Readback) (t : Int)
    (s : HWState) :
    set_center_frequency fuel rb t s =
      ((setCFloop fuel (clampFreq t)
          (if s.mode ≠ Mode.centre then toggle_mode rb s else (s, [])).1).1,
       (if s.mode ≠ Mode.centre then toggle_mode rb s else (s, [])).2 ++
       (setCFloop fuel (clampFreq t)
          (if s.mode ≠ Mode.centre then toggle_mode rb s else (s, [])).1).2) :=
  rfl

lemma set_bandwidth_eq (fuel : Nat) (rb : Readback) (t : Int)
    (s : HWState) :
    set_bandwidth fuel rb t s =
      ((setBWloop fuel (clampFreq t)
          (if s.mode ≠ Mode.bandwidth then toggle_mode rb s else (s, [])).1).1,
       (if s.mode ≠ Mode.bandwidth then toggle_mode rb s else (s, [])).2 ++
       (setBWloop fuel (clampFreq t)
          (if s.mode ≠ Mode.bandwidth then toggle_mode rb s else (s, [])).1).2) :=
  rfl

lemma setCFloop_osc1510 :
    ∀ (fuel : Nat) (s : HWState), s.mode = Mode.centre →
      s.center_freq = 1500 ∨ s.center_freq = 1525 →
      (setCFloop fuel 1510 s).1 = none := by
  intro fuel
  induction fuel with
  | zero =>
    intro s _ _
    rfl
  | succ n ih =>
    intro s hm hcf
    rw [setCFloop_fst]
    rcases hcf with h | h
    · rw [if_neg (by omega), if_pos (show (1510 : Int) > s.center_freq by omega)]
      apply ih
      · rw [step_mode]
        exact hm
      · right
        rw [step_fst, if_pos hm, update_center_cf, h]
        decide
    · rw [if_neg (by omega),
        if_neg (show ¬(1510 : Int) > s.center_freq by omega)]
      apply ih
      · rw [step_mode]
        exact hm
      · left
        rw [step_fst, if_pos hm, update_center_cf, h]
        decide

/-- C1: the claim asserts that the convergence loop terminates in a
bounded number of iterations for every valid target in [200, 3500].  The
code has no termination rule: for the valid target 1510 — which is not on
the evolving step grid from the initial center frequency 1500 — the
`while self.center_freq != target` loop oscillates between 1500 and 1525
forever.  Formally: for every iteration bound, the loop is still running
(`none`), so the Python loop never exits. -/
theorem C1_convergence_loop_unbounded :
    ∀ (fuel : Nat) (rb : Readback),
      (set_center_frequency fuel rb 1510 initState).1 = none := by
  intro fuel rb
  rw [set_center_frequency_eq,
    if_neg (show ¬initState.mode ≠ Mode.centre from not_not_intro rfl)]
  rw [show clampFreq 1510 = (1510 : Int) from rfl]
  exact setCFloop_osc1510 fuel initState rfl (Or.inl rfl)

/-- C2 counterexample: the claim says that after an invalid mode readback
the requested parameter change (the convergence loop) is not attempted.
Concretely: set_bandwidth(2500) from the initial state presses the button,
gets the invalid readback (1,1), prints the warning — and then still runs
the convergence loop, emitting encoder phase pulses (which, with the
shadow mode still "centre", step the wrong parameter). -/
theorem C2_counterexample :
    invalidReadback (1, 1) ∧
    Ev.warnInvalidMode ∈ (set_bandwidth 1 (1, 1) 2500 initState).2 ∧
    Ev.phase 0 0 ∈ (set_bandwidth 1 (1, 1) 2500 initState).2 := by
  refine ⟨by decide, by decide, by decide⟩

/-- C2 (amended): whenever the mode readback after a button press is
invalid, the shadow mode — indeed the whole shadow state — is left
unchanged and the only effects are the one button press and a printed
warning; the failure is not returned to the caller, and the requested
parameter change IS still attempted: the convergence loop runs anyway and
emits encoder pulses. -/
theorem C2_amended_invalid_readback :
    (∀ (s : HWState) (rb : Readback), invalidReadback rb →
        toggle_mode rb s = (s, [Ev.press, Ev.warnInvalidMode])) ∧
    (∀ (s : HWState) (rb : Readback) (t : Int) (fuel : Nat),
        invalidReadback rb → s.mode = Mode.centre →
        ¬clampFreq t = s.bandwidth → 1 ≤ fuel →
        Ev.phase 0 0 ∈ (set_bandwidth fuel rb t s).2) := by
  constructor
  · intro s rb hr
    exact toggle_mode_invalid s hr
  · intro s rb t fuel hr hm hne hf
    obtain ⟨k, rfl⟩ : ∃ k, fuel = k + 1 := ⟨fuel - 1, by omega⟩
    rw [set_bandwidth_eq,
      if_pos (show s.mode ≠ Mode.bandwidth by rw [hm]; exact fun hh => Mode.noConfusion hh),
      toggle_mode_invalid s hr]
    apply List.mem_append_right
    rw [setBWloop_succ, if_neg (fun hh => hne hh.symm)]
    apply List.mem_append_left
    rw [step_snd, List.append_nil]
    exact phase00_mem_step_once _

/-- C2 amended witness: the concrete run of the counterexample, obtained
by applying the amended theorem at the initial state with readback (1,1)
and target 2500. -/
theorem C2_amended_invalid_readback_witness :
    toggle_mode (1, 1) initState =
      (initState, [Ev.press, Ev.warnInvalidMode]) ∧
    Ev.phase 0 0 ∈ (set_bandwidth 1 (1, 1) 2500 initState).2 :=
  ⟨C2_amended_invalid_readback.1 initState (1, 1) (by decide),
   C2_amended_invalid_readback.2 initState (1, 1) 2500 1 (by decide) rfl
     (by decide) (by decide)⟩

set_option maxRecDepth 8000 in
/-- C4 counterexample: two reachable states where a shadow value is not a
multiple of the step size the policy currently reports for it.  One
21-detent CW step from the initial state leaves center_freq = 2025, for
which the policy reports 50 (2025 is not a multiple of 50); and after
toggling into bandwidth mode, 23 single CCW detents leave
bandwidth = 350, for which the policy reports 20 (350 is not a multiple
of 20). -/
theorem C4_counterexample :
    Reachable reachState2025 ∧ reachState2025.center_freq = 2025 ∧
    centerStepSize reachState2025.center_freq = 50 ∧
    ¬reachState2025.center_freq % centerStepSize reachState2025.center_freq = 0 ∧
    Reachable reachState350 ∧ reachState350.bandwidth = 350 ∧
    bandwidthStepSize reachState350.bandwidth = 20 ∧
    ¬reachState350.bandwidth % bandwidthStepSize reachState350.bandwidth = 0 :=
  ⟨reachable_reachState2025, by decide, by decide, by decide,
   reachable_reachState350, by decide, by decide, by decide⟩

/-- C4 (amended): in every reachable state, center_freq is a multiple of
25 (the finer of its two step sizes) and bandwidth is a multiple of 10
(the greatest common divisor of its three step sizes); neither is in
general a multiple of the step size the policy currently reports for its
own value. -/
theorem C4_amended_multiples :
    ∀ s : HWState, Reachable s →
      s.center_freq % 25 = 0 ∧ s.bandwidth % 10 = 0 := by
  intro s h
  obtain ⟨_, _, h3, _, _, h6⟩ := reachable_inv h
  exact ⟨h3, h6⟩

/-- C4 amended witness: the amended invariant evaluated at the reachable
state with bandwidth 350. -/
theorem C4_amended_multiples_witness :
    reachState350.center_freq % 25 = 0 ∧ reachState350.bandwidth % 10 = 0 :=
  C4_amended_multiples reachState350 reachable_reachState350

/-- C5 counterexample: requesting centre mode twice from a reachable
bandwidth-mode state, with the indicator readback invalid (1,1) both
times, presses the physical button twice — the claim allows at most one
press in total. -/
theorem C5_counterexample :
    modeBWState.mode = Mode.bandwidth ∧ Reachable modeBWState ∧
    ((requestTwice Mode.centre (1, 1) (1, 1) modeBWState).2).count Ev.press = 2 ∧
    ¬((requestTwice Mode.centre (1, 1) (1, 1) modeBWState).2).count Ev.press ≤ 1 :=
  ⟨rfl, reachable_modeBWState, by decide, by decide⟩

/-- C5 (amended): two consecutive requests of the same target mode press
the button at most once in total provided the shadow mode already equals
the target, or the first press's readback reports the target mode.
(Without that proviso each call whose shadow mode mismatches the target
presses once, so an invalid or contrary readback on the first call makes
the second call press again.) -/
theorem C5_amended_idempotence :
    ∀ (m : Mode) (s : HWState) (rb1 rb2 : Readback),
      s.mode = m ∨ readMode rb1 = some m →
      ((requestTwice m rb1 rb2 s).2).count Ev.press ≤ 1 := by
  intro m s rb1 rb2 h
  rw [requestTwice_eq]
  by_cases h1 : s.mode = m
  · rw [requestMode_eq_of_mode m rb1 h1]
    dsimp only
    rw [requestMode_eq_of_mode m rb2 h1]
    dsimp only
    simp
  · have h2 : readMode rb1 = some m := h.resolve_left h1
    rw [requestMode_eq_of_ne m rb1 h1, toggle_mode_of_readMode s h2]
    dsimp only
    rw [requestMode_eq_of_mode m rb2 rfl]
    dsimp only
    simp

/-- C5 amended witness: requesting centre mode twice from the reachable
bandwidth-mode state with a valid centre readback (1,0) both times
presses the button at most once, via the amended theorem. -/
theorem C5_amended_idempotence_witness :
    (modeBWState.mode = Mode.centre ∨ readMode (1, 0) = some Mode.centre) ∧
    ((requestTwice Mode.centre (1, 0) (1, 0) modeBWState).2).count Ev.press ≤ 1 :=
  ⟨Or.inr (by decide),
   C5_amended_idempotence Mode.centre modeBWState (1, 0) (1, 0)
     (Or.inr (by decide))⟩

/-- C6 counterexample: the claim says every value delivered to the
registered level observer lies in [0.0, 1.0], but the mock backend's
pump (MockHW._pump, one of the claim's sources) delivers
`50 + 45 * sin(1.6 * t)`; at t = 0 (where sin is exactly 0) the observer
receives exactly 50.0, far outside [0, 1]. -/
theorem C6_counterexample :
    mockPumpLevel 0 = 50 ∧ ¬mockPumpLevel 0 ≤ 1 := by
  constructor <;> norm_num [mockPumpLevel]

/-- C6 (amended): the RPi overload poller delivers exactly 1.0 on a tick
on which the overload line reads high and exactly 0.0 otherwise, so every
value it delivers lies in {0.0, 1.0} ⊆ [0.0, 1.0]; the mock backend's
pump, by contrast, delivers values outside that interval. -/
theorem C6_amended_poller_levels :
    ∀ raw : Nat,
      (pollTickLevel raw = 0 ∨ pollTickLevel raw = 1) ∧
      0 ≤ pollTickLevel raw ∧ pollTickLevel raw ≤ 1 ∧
      (raw = 1 → pollTickLevel raw = 1) ∧
      (¬raw = 1 → pollTickLevel raw = 0) := by
  intro raw
  unfold pollTickLevel
  by_cases h : raw = 1
  · rw [if_pos h]
    exact ⟨Or.inr rfl, by norm_num, by norm_num, fun _ => rfl,
      fun hc => absurd h hc⟩
  · rw [if_neg h]
    exact ⟨Or.inl rfl, by norm_num, by norm_num, fun hc => absurd hc h,
      fun _ => rfl⟩

/-- C6 amended witness: a high tick delivers exactly 1.0 and a low tick
exactly 0.0, via the amended theorem. -/
theorem C6_amended_poller_levels_witness :
    pollTickLevel 1 = 1 ∧ pollTickLevel 0 = 0 :=
  ⟨(C6_amended_poller_levels 1).2.2.2.1 rfl,
   (C6_amended_poller_levels 0).2.2.2.2 (by decide)⟩

/-- C9: in every state reachable from the initial shadow state by any
sequence of driver operations (step, toggle_mode, set_volume, set_bypass,
and hence also set_center_frequency / set_bandwidth, which mutate the
shadow only through step and toggle_mode), center_freq and bandwidth stay
within [200, 3500] — every update clamps to that interval. -/
theorem C9_shadow_range_invariant :
    ∀ s : HWState, Reachable s →
      200 ≤ s.center_freq ∧ s.center_freq ≤ 3500 ∧
      200 ≤ s.bandwidth ∧ s.bandwidth ≤ 3500 := by
  intro s h
  obtain ⟨h1, h2, _, h4, h5, _⟩ := reachable_inv h
  exact ⟨h1, h2, h4, h5⟩

/-- C9 witness: the range invariant evaluated at the reachable state with
bandwidth 350 (after a mode toggle and 23 CCW detents). -/
theorem C9_shadow_range_invariant_witness :
    200 ≤ reachState350.center_freq ∧ reachState350.center_freq ≤ 3500 ∧
    200 ≤ reachState350.bandwidth ∧ reachState350.bandwidth ≤ 3500 :=
  C9_shadow_range_invariant reachState350 reachable_reachState350
